import Mathlib

/-!
Verification of the document-QA web application (`src/e5.py`).

The module is a linear startup pipeline (credential check, document-folder
check, per-file text extraction, corpus check, chunking) followed by a
two-route Flask front end.  The pipeline and the handlers are embedded below
as executable Lean functions; strings are modelled as `List Char`, external
library calls (the language-model invocations, the PDF/DOCX parsers) as
explicit inputs describing what those calls return.
-/

/-- Text as the Python code manipulates it: a sequence of characters. -/
abbrev Str : Type := List Char

/-- A character Python's `str.strip` removes. -/
def isWS (c : Char) : Bool := c.isWhitespace

/-- Python `str.strip()`: drop whitespace from both ends. -/
def stripChars (xs : Str) : Str :=
  ((xs.dropWhile isWS).reverse.dropWhile isWS).reverse

/-- Python `"\n".join(l)`. -/
def joinNL (l : List Str) : Str := List.intercalate ['\n'] l

/-! ## Document extraction (`extract_text_from_pdf`, lines 24-37, and
`extract_text_from_docx`, lines 40-44)

A PDF page is modelled by what `page.extract_text()` returns for it: `none`
for Python `None`, otherwise the page's text.  The OCR side is modelled by
the strings `pytesseract.image_to_string` would return for the rasterized
pages. -/

/-- What one page adds to the accumulated text: `if page_text: text +=
page_text + "\n"` (lines 29-31, with Python truthiness: `None` and the empty
string add nothing). -/
def pageContrib (p : Option Str) : Str :=
  match p with
  | some t => if t.isEmpty then [] else t ++ ['\n']
  | none => []

/-- The text accumulated by the direct-extraction loop over the pages
(lines 26-31). -/
def directText (pages : List (Option Str)) : Str :=
  pages.foldl (fun acc p => acc ++ pageContrib p) []

/-- The text accumulated by the OCR loop over the page images
(lines 34-36): `text += pytesseract.image_to_string(img, lang="hin") + "\n"`. -/
def ocrText (ocr : List Str) : Str :=
  ocr.foldl (fun acc t => acc ++ (t ++ ['\n'])) []

/-- The guard of line 32, `if not text.strip():`, deciding whether the OCR
fallback runs. -/
def usesOCR (pages : List (Option Str)) : Bool :=
  (stripChars (directText pages)).isEmpty

/-- `extract_text_from_pdf` (lines 24-37): page-by-page direct extraction,
OCR fallback when the direct text strips to nothing, final `text.strip()`. -/
def extract_text_from_pdf (pages : List (Option Str)) (ocr : List Str) : Str :=
  if usesOCR pages then stripChars (directText pages ++ ocrText ocr)
  else stripChars (directText pages)

/-- `extract_text_from_docx` (lines 40-44): join the paragraphs whose text
does not strip to nothing with newlines, then strip the result.  A DOCX file
is modelled by its paragraphs' texts. -/
def extract_text_from_docx (paras : List Str) : Str :=
  stripChars (joinNL (paras.filter (fun t => !(stripChars t).isEmpty)))

/-! ## The startup load loop (lines 52-64) -/

/-- A file of the documents folder.  The fields model what the external
parsers would return for it: `pdfPages`/`pdfOcr` what `PdfReader` and the
OCR would yield if the file is read as a PDF, `docxParas` the paragraph
texts if it is read as a DOCX.  Which view the loop reads is decided by the
file name's suffix, exactly as lines 55 and 60 do. -/
structure SrcFile where
  name : Str
  pdfPages : List (Option Str)
  pdfOcr : List Str
  docxParas : List Str

/-- The dispatch of lines 55-61: `.pdf` names go through
`extract_text_from_pdf`, `.docx` names through `extract_text_from_docx`,
any other name is ignored. -/
def extractFile (f : SrcFile) : Option Str :=
  if List.isSuffixOf ".pdf".data f.name then
    some (extract_text_from_pdf f.pdfPages f.pdfOcr)
  else if List.isSuffixOf ".docx".data f.name then
    some (extract_text_from_docx f.docxParas)
  else none

/-- What one file contributes to `all_text`: its extracted text when that
text is truthy (`if extracted_text:` on lines 57 and 62), nothing
otherwise. -/
def corpusEntry (f : SrcFile) : Option Str :=
  match extractFile f with
  | some t => if t.isEmpty then none else some t
  | none => none

/-- The load loop of lines 52-64: `all_text` after the loop over the folder
listing. -/
def loadCorpus (files : List SrcFile) : List Str :=
  files.filterMap corpusEntry

/-! ## Chunking (lines 72-73)

Modelled from the spec: `RecursiveCharacterTextSplitter(chunk_size=500,
chunk_overlap=50).split_text` is langchain library code, not part of this
repository.  Following the spec's chunker contract (section 4.2 and the
Chunk entry of section 3), the splitter produces an ordered sequence of
overlapping substrings of its input, each of length at most `chunk_size`,
consecutive chunks overlapping by `chunk_overlap` characters.  The fuel
argument of the worker bounds the recursion; `s.length` steps always
suffice since every recursive call removes `chunk_size - chunk_overlap > 0`
characters. -/

/-- `chunk_size=500` (line 72). -/
def chunk_size : Nat := 500

/-- `chunk_overlap=50` (line 72). -/
def chunk_overlap : Nat := 50

/-- Modelled from the spec: one splitting step of the chunker.  If at most
`chunk_size` characters remain they form the last chunk; otherwise the next
chunk is the next `chunk_size` characters and splitting resumes
`chunk_size - chunk_overlap` characters further on. -/
def splitTextGo (fuel : Nat) (s : Str) : List Str :=
  match fuel with
  | 0 => [s]
  | f + 1 =>
    if s.length ≤ chunk_size then [s]
    else s.take chunk_size :: splitTextGo f (s.drop (chunk_size - chunk_overlap))

/-- Modelled from the spec: `splitter.split_text` (line 73). -/
def split_text (s : Str) : List Str := splitTextGo s.length s

/-! ## The startup pipeline (lines 14-74) -/

/-- The process environment the module-level code reads: the result of
`os.getenv("OPENAI_API_KEY")` (line 15), whether `os.path.exists(data_folder)`
(line 48), the folder path interpolated into the error message of line 49,
and the folder's listing (line 53). -/
structure Env where
  openai_api_key : Option Str
  dataFolderExists : Bool
  dataFolderPath : Str
  files : List SrcFile

/-- The three exceptions the module-level code can raise before serving:
`ValueError` at line 17, `FileNotFoundError` at line 49, `ValueError` at
line 67. -/
inductive StartupError
  | missingKey
  | missingFolder (path : Str)
  | emptyCorpus
deriving DecidableEq

/-- The message each startup exception carries. -/
def startupErrorMessage : StartupError → Str
  | .missingKey => "OpenAI API key is missing! Check your .env file.".data
  | .missingFolder path => "Folder not found: ".data ++ path
  | .emptyCorpus => "No valid content found in the PDFs or DOCX files.".data

/-- The guard of line 16, `if not openai_api_key:` (Python truthiness:
unset or empty). -/
def keyMissing (env : Env) : Bool :=
  match env.openai_api_key with
  | none => true
  | some k => k.isEmpty

/-- The module-level startup code (lines 14-74): credential check, folder
check, load loop, corpus check, concatenation (line 68) and chunking
(line 73).  An exception aborts the process: nothing after the raising line
runs. -/
def startup (env : Env) : Except StartupError (List Str) :=
  if keyMissing env then .error .missingKey
  else if !env.dataFolderExists then .error (.missingFolder env.dataFolderPath)
  else
    let all_text := loadCorpus env.files
    if all_text.isEmpty then .error .emptyCorpus
    else .ok (split_text (joinNL all_text))

/-! ## Query handling (`handle_user_input`, lines 89-96)

`qa_chain.run` and `llm.invoke` are external API calls; they are modelled
as function arguments giving the string each call returns. -/

/-- The fallback of line 93. -/
def apologyMsg : Str := "I'm sorry, I couldn't find an answer to that question.".data

/-- The fallback of line 96. -/
def translationFailedMsg : Str := "Translation failed.".data

/-- The f-string of line 94. -/
def translationPromptOf (hindi : Str) : Str :=
  "Translate the following Hindi text to English:\n\n".data ++ hindi
    ++ "\n\nProvide a natural English answer.".data

/-- `handle_user_input` (lines 89-96). -/
def handle_user_input (qaRun llmInvoke : Str → Str) (user_query : Str) : Str :=
  let hindi_response := qaRun user_query
  if hindi_response.isEmpty then apologyMsg
  else
    let english_response := llmInvoke (translationPromptOf hindi_response)
    if english_response.isEmpty then translationFailedMsg else english_response

/-! ## The Flask routes (lines 101-117) -/

inductive HttpMethod
  | get
  | post
deriving DecidableEq

/-- The form fields the root handler reads (lines 104-106): `request.form.get`
returns `None` for a missing field. -/
structure FormData where
  name : Option Str
  dob : Option Str
  question : Option Str

/-- What the root handler renders: line 110 (the answer page) or line 111
(the initial greeting only). -/
inductive IndexPage
  | answered (greeting response name dob : Str)
  | initial (greeting : Str)

/-- The greeting of line 111. -/
def initialGreeting : Str :=
  "🤖 Hello! I am your AI assistant. Please provide your details to begin.".data

/-- The greeting prefix of line 109. -/
def welcomePre : Str := "🤖 Welcome, ".data

/-- The greeting suffix of line 109. -/
def welcomeSuf : Str :=
  "! 🎉 I am here to assist you with queries from my trained knowledge.".data

/-- The root route handler `index` (lines 101-111).  The answer branch runs
only on POST with all three fields truthy (line 107). -/
def index (qaRun llmInvoke : Str → Str) (method : HttpMethod) (form : FormData) :
    IndexPage :=
  match method with
  | .post =>
    match form.name, form.dob, form.question with
    | some n, some d, some q =>
      if !n.isEmpty && !d.isEmpty && !q.isEmpty then
        .answered (welcomePre ++ n ++ welcomeSuf) (handle_user_input qaRun llmInvoke q) n d
      else .initial initialGreeting
    | _, _, _ => .initial initialGreeting
  | .get => .initial initialGreeting

/-- The JSON payload of line 117: an object with the single field
`farewell`. -/
structure ExitResponse where
  farewell : Str

/-- The farewell prefix of line 116. -/
def byePre : Str := "👋 Bye, ".data

/-- The farewell suffix of line 116. -/
def byeSuf : Str := "! Have a great day! 😊".data

/-- The `/exit` route handler `exit_app` (lines 113-117):
`request.args.get("name", "friend")` defaults a missing query parameter to
`"friend"`. -/
def exit_app (nameParam : Option Str) : ExitResponse :=
  ⟨byePre ++ nameParam.getD "friend".data ++ byeSuf⟩

/-! ## Module execution and the `_name_` guard (lines 119-120) -/

/-- Every global name the module binds while it executes (imports of lines
1-11, module-level assignments and `def`s of lines 15-114, the loop
variables of lines 53-61, and the implicit module globals).  `_name_`, the
identifier line 119 reads, is not among them: the module never assigns it. -/
def moduleBoundNames : List String :=
  ["os", "pytesseract", "convert_from_path", "RecursiveCharacterTextSplitter",
   "OpenAIEmbeddings", "OpenAI", "FAISS", "RetrievalQA", "PdfReader", "Document",
   "load_dotenv", "Flask", "request", "render_template", "jsonify",
   "openai_api_key", "extract_text_from_pdf", "extract_text_from_docx",
   "data_folder", "all_text", "filename", "file_path", "extracted_text",
   "full_text", "splitter", "chunks", "embedding_model", "vector_db", "llm",
   "retriever", "qa_chain", "handle_user_input", "app", "index", "exit_app",
   "__name__", "__file__", "__doc__", "__builtins__", "__loader__", "__spec__",
   "__package__"]

/-- How executing the module as a script can end: a startup exception
(lines 17, 49, 67), the `NameError` from evaluating the unbound identifier
`_name_` at line 119, or reaching `app.run(debug=True)` at line 120 (which
Python only does if `_name_` evaluates without error, over-approximated
here as starting the server whenever the identifier is bound). -/
inductive ModuleOutcome
  | startupFailure (e : StartupError)
  | nameErrorAtGuard
  | serverStarted
deriving DecidableEq

/-- Executing `src/e5.py` as a script: the startup pipeline runs first
(any exception propagates), then line 119 evaluates the identifier
`_name_`, which raises `NameError` when the module namespace does not bind
it. -/
def runModule (env : Env) : ModuleOutcome :=
  match startup env with
  | .error e => .startupFailure e
  | .ok _ =>
    if moduleBoundNames.contains "_name_" then .serverStarted
    else .nameErrorAtGuard

/-! ## Helper lemmas -/

/-- A string strips to nothing exactly when all of its characters are
whitespace. -/
theorem stripChars_eq_nil_iff (xs : Str) :
    stripChars xs = [] ↔ ∀ c ∈ xs, isWS c = true := by
  unfold stripChars
  rw [List.reverse_eq_nil_iff, List.dropWhile_eq_nil_iff]
  constructor
  · intro h c hc
    rw [← List.takeWhile_append_dropWhile (p := isWS) (l := xs)] at hc
    rcases List.mem_append.1 hc with hc | hc
    · exact List.mem_takeWhile_imp hc
    · exact h c (List.mem_reverse.2 hc)
  · intro h c hc
    exact h c (List.Sublist.mem (List.mem_reverse.1 hc) (List.dropWhile_sublist isWS))

theorem foldl_append_flatten {α : Type} (g : α → Str) (l : List α) (acc : Str) :
    l.foldl (fun a p => a ++ g p) acc = acc ++ (l.map g).flatten := by
  induction l generalizing acc with
  | nil => simp
  | cons p ps ih => simp [ih, List.append_assoc]

theorem directText_eq (pages : List (Option Str)) :
    directText pages = (pages.map pageContrib).flatten := by
  unfold directText
  simpa using foldl_append_flatten pageContrib pages []

/-- One page's contribution is all whitespace exactly when the page's direct
text (nothing, for a `None` page) is all whitespace. -/
theorem pageContrib_allWS (p : Option Str) :
    (∀ c ∈ pageContrib p, isWS c = true) ↔ ∀ c ∈ p.getD [], isWS c = true := by
  cases p with
  | none => simp [pageContrib]
  | some t =>
    by_cases h : t.isEmpty = true
    · have ht : t = [] := List.isEmpty_iff.1 h
      subst ht
      simp [pageContrib]
    · simp only [pageContrib, if_neg h, Option.getD_some]
      constructor
      · intro hall c hc
        exact hall c (List.mem_append_left _ hc)
      · intro hall c hc
        rcases List.mem_append.1 hc with hc | hc
        · exact hall c hc
        · have hcn : c = '\n' := by simpa using hc
          subst hcn
          decide

/-- The direct-extraction text is all whitespace exactly when each page's
direct text is. -/
theorem directText_allWS (pages : List (Option Str)) :
    (∀ c ∈ directText pages, isWS c = true) ↔
      ∀ p ∈ pages, ∀ c ∈ p.getD [], isWS c = true := by
  rw [directText_eq]
  constructor
  · intro h p hp
    refine (pageContrib_allWS p).1 (fun x hx => ?_)
    exact h x (List.mem_flatten.2 ⟨pageContrib p, List.mem_map_of_mem _ hp, hx⟩)
  · intro h c hc
    obtain ⟨l, hl, hcl⟩ := List.mem_flatten.1 hc
    obtain ⟨p, hp, rfl⟩ := List.mem_map.1 hl
    exact (pageContrib_allWS p).2 (h p hp) c hcl

/-- A file contributes nothing to `all_text` exactly when the loop ignores
its name or its extracted text is empty. -/
theorem corpusEntry_eq_none_iff (f : SrcFile) :
    corpusEntry f = none ↔ extractFile f = none ∨ extractFile f = some [] := by
  unfold corpusEntry
  cases hx : extractFile f with
  | none => simp
  | some t =>
    by_cases ht : t.isEmpty = true
    · have : t = [] := List.isEmpty_iff.1 ht
      subst this
      simp
    · have : t ≠ [] := fun hh => ht (by simp [hh])
      simp [if_neg ht, this]

/-- Every chunk the splitter worker produces is a contiguous substring of
its input. -/
theorem splitTextGo_infix (fuel : Nat) (s : Str) :
    ∀ c ∈ splitTextGo fuel s, c <:+: s := by
  induction fuel generalizing s with
  | zero =>
    intro c hc
    simp only [splitTextGo, List.mem_singleton] at hc
    subst hc
    exact List.infix_refl _
  | succ f ih =>
    intro c hc
    simp only [splitTextGo] at hc
    by_cases h : s.length ≤ chunk_size
    · rw [if_pos h] at hc
      simp only [List.mem_singleton] at hc
      subst hc
      exact List.infix_refl _
    · rw [if_neg h] at hc
      rcases List.mem_cons.1 hc with hc | hc
      · subst hc
        exact (List.take_prefix _ _).isInfix
      · exact (ih _ c hc).trans (List.drop_suffix _ _).isInfix

/-- With enough fuel, every chunk the splitter worker produces has length
at most `chunk_size`. -/
theorem splitTextGo_length_le (fuel : Nat) (s : Str) (h : s.length ≤ fuel + chunk_size) :
    ∀ c ∈ splitTextGo fuel s, c.length ≤ chunk_size := by
  induction fuel generalizing s with
  | zero =>
    intro c hc
    simp only [splitTextGo, List.mem_singleton] at hc
    subst hc
    simpa using h
  | succ f ih =>
    intro c hc
    simp only [splitTextGo] at hc
    by_cases hlen : s.length ≤ chunk_size
    · rw [if_pos hlen] at hc
      simp only [List.mem_singleton] at hc
      subst hc
      exact hlen
    · rw [if_neg hlen] at hc
      rcases List.mem_cons.1 hc with hc | hc
      · subst hc
        simp [List.length_take]
      · refine ih _ ?_ c hc
        simp only [List.length_drop, chunk_size, chunk_overlap] at h hlen ⊢
        omega

theorem split_text_infix (s : Str) : ∀ c ∈ split_text s, c <:+: s :=
  splitTextGo_infix s.length s

theorem split_text_length_le (s : Str) : ∀ c ∈ split_text s, c.length ≤ chunk_size :=
  splitTextGo_length_le s.length s (by omega)

/-! ## Concrete inputs used by the witnesses -/

/-- A DOCX file holding the single paragraph `hi`. -/
def docxHiFile : SrcFile := ⟨['n', '.', 'd', 'o', 'c', 'x'], [], [], [['h', 'i']]⟩

/-- A PDF file whose pages and OCR yield no text at all. -/
def emptyPdfFile : SrcFile := ⟨['e', '.', 'p', 'd', 'f'], [], [], []⟩

/-- An environment with a credential, an existing folder and one loadable
DOCX file. -/
def envOneDocx : Env := ⟨some ['s', 'k'], true, ['d'], [docxHiFile]⟩

/-! ## The claims -/

/-- C1: at startup, each of the three fatal conditions (missing or empty
`OPENAI_API_KEY`, missing document directory, empty extracted corpus) aborts
the process by raising an exception with a non-empty descriptive message, and
no later pipeline stage runs (the result is an error, never chunks).  The
empty-corpus condition holds exactly when no `.pdf` or `.docx` file yields
any non-empty text. -/
theorem claim_c1_startup_fatal_conditions (env : Env) :
    (keyMissing env = true → startup env = .error .missingKey) ∧
    (keyMissing env = false → env.dataFolderExists = false →
      startup env = .error (.missingFolder env.dataFolderPath)) ∧
    (keyMissing env = false → env.dataFolderExists = true →
      loadCorpus env.files = [] → startup env = .error .emptyCorpus) ∧
    (loadCorpus env.files = [] ↔
      ∀ f ∈ env.files, extractFile f = none ∨ extractFile f = some []) ∧
    (∀ e : StartupError, startupErrorMessage e ≠ []) ∧
    (∀ e cs, startup env = .error e → startup env ≠ .ok cs) := by
  refine ⟨?_, ?_, ?_, ?_, ?_, ?_⟩
  · intro h
    simp [startup, h]
  · intro h1 h2
    simp [startup, h1, h2]
  · intro h1 h2 h3
    simp [startup, h1, h2, h3]
  · simp only [loadCorpus, List.filterMap_eq_nil_iff]
    constructor
    · intro h f hf
      exact (corpusEntry_eq_none_iff f).1 (h f hf)
    · intro h f hf
      exact (corpusEntry_eq_none_iff f).2 (h f hf)
  · intro e
    cases e with
    | missingKey => decide
    | emptyCorpus => decide
    | missingFolder p =>
      intro h
      have h2 : 'F' :: ("older not found: ".data ++ p) = [] := h
      exact List.cons_ne_nil _ _ h2
  · intro e cs he hok
    rw [he] at hok
    exact Except.noConfusion hok

/-- C2: every chunk the chunker produces from the concatenated corpus text
is a contiguous substring of that concatenated text. -/
theorem claim_c2_chunks_are_substrings (env : Env) (cs : List Str)
    (h : startup env = .ok cs) :
    ∀ c ∈ cs, c <:+: joinNL (loadCorpus env.files) := by
  unfold startup at h
  by_cases hk : keyMissing env
  · simp [hk] at h
  · rw [if_neg hk] at h
    by_cases hd : env.dataFolderExists
    · rw [if_neg (by simp [hd])] at h
      by_cases he : (loadCorpus env.files).isEmpty
      · simp only [he, if_pos] at h
        exact Except.noConfusion h
      · simp only [Bool.not_eq_true] at he
        simp only [he, Bool.false_eq_true, if_false, Except.ok.injEq] at h
        subst h
        exact split_text_infix _
    · rw [if_pos (by simp [hd])] at h
      exact Except.noConfusion h

theorem claim_c2_substring_witness :
    ['h', 'i'] <:+: joinNL (loadCorpus envOneDocx.files) :=
  claim_c2_chunks_are_substrings envOneDocx [['h', 'i']] rfl ['h', 'i'] (by decide)

/-- C3: a file whose extraction yields no text (or whose name the loop does
not recognise) is silently omitted from the corpus: the load of the whole
listing goes on and produces exactly the corpus of the other files. -/
theorem claim_c3_failed_extraction_skipped (pre post : List SrcFile) (f : SrcFile)
    (h : extractFile f = none ∨ extractFile f = some []) :
    loadCorpus (pre ++ f :: post) = loadCorpus (pre ++ post) := by
  have hnone : corpusEntry f = none := (corpusEntry_eq_none_iff f).2 h
  simp [loadCorpus, List.filterMap_append, List.filterMap_cons, hnone]

theorem claim_c3_skipped_witness :
    loadCorpus [docxHiFile, emptyPdfFile] = loadCorpus [docxHiFile] :=
  claim_c3_failed_extraction_skipped [docxHiFile] [] emptyPdfFile (Or.inr rfl)

/-- C4: `handle_user_input` returns the apology placeholder when the answer
invocation returns an empty string (and then the translation model is never
consulted: the result is the same for every translation oracle), the
translation-failure placeholder when the translation invocation returns an
empty string, and otherwise the translation output itself. -/
theorem claim_c4_placeholder_fallbacks (qaRun llmInvoke llm2 : Str → Str) (q : Str) :
    (qaRun q = [] → handle_user_input qaRun llmInvoke q = apologyMsg ∧
      handle_user_input qaRun llmInvoke q = handle_user_input qaRun llm2 q) ∧
    (qaRun q ≠ [] → llmInvoke (translationPromptOf (qaRun q)) = [] →
      handle_user_input qaRun llmInvoke q = translationFailedMsg) ∧
    (qaRun q ≠ [] → llmInvoke (translationPromptOf (qaRun q)) ≠ [] →
      handle_user_input qaRun llmInvoke q = llmInvoke (translationPromptOf (qaRun q))) := by
  refine ⟨fun h => ?_, fun h1 h2 => ?_, fun h1 h2 => ?_⟩
  · constructor <;> simp [handle_user_input, h]
  · have e1 : (qaRun q).isEmpty = false := List.isEmpty_eq_false.2 h1
    have e2 : (llmInvoke (translationPromptOf (qaRun q))).isEmpty = true :=
      List.isEmpty_iff.2 h2
    simp [handle_user_input, e1, e2]
  · have e1 : (qaRun q).isEmpty = false := List.isEmpty_eq_false.2 h1
    have e2 : (llmInvoke (translationPromptOf (qaRun q))).isEmpty = false :=
      List.isEmpty_eq_false.2 h2
    simp [handle_user_input, e1, e2]

/-- C5: chunking is deterministic (the splitter is a function: the same
input with the fixed parameters 500/50 yields the identical ordered chunk
sequence) and bounded (every chunk has length at most the configured
maximum, 500). -/
theorem claim_c5_chunking_deterministic_bounded (s : Str) :
    split_text s = split_text s ∧ chunk_size = 500 ∧ chunk_overlap = 50 ∧
      ∀ c ∈ split_text s, c.length ≤ 500 := by
  refine ⟨rfl, rfl, rfl, fun c hc => ?_⟩
  exact split_text_length_le s c hc

/-- C6: a POST of the root route whose `question` field is missing or empty
renders only the initial greeting page; the QA engine is not consulted (the
result is the same for every pair of model oracles) and no answer is
rendered. -/
theorem claim_c6_empty_question_initial_greeting (qaRun llmInvoke qa2 llm2 : Str → Str)
    (form : FormData) (h : form.question = none ∨ form.question = some []) :
    index qaRun llmInvoke .post form = .initial initialGreeting ∧
      index qaRun llmInvoke .post form = index qa2 llm2 .post form := by
  obtain ⟨n, d, qopt⟩ := form
  have main : ∀ f g : Str → Str,
      index f g .post ⟨n, d, qopt⟩ = .initial initialGreeting := by
    intro f g
    rcases h with h | h <;> simp only at h <;> subst h <;>
      cases n <;> cases d <;> simp [index]
  exact ⟨main _ _, (main _ _).trans (main _ _).symm⟩

theorem claim_c6_greeting_witness :
    index (fun _ => []) (fun _ => []) .post ⟨some ['a'], some ['b'], none⟩ =
      IndexPage.initial initialGreeting :=
  (claim_c6_empty_question_initial_greeting (fun _ => []) (fun _ => [])
    (fun _ => []) (fun _ => []) ⟨some ['a'], some ['b'], none⟩ (Or.inl rfl)).1

/-- C7: for every supplied `name` value n, `GET /exit` returns a JSON object
whose single string field `farewell` contains n as a contiguous substring;
in particular `/exit?name=Asha` yields a farewell containing `Asha`. -/
theorem claim_c7_exit_farewell_contains_name (n : Str) :
    (exit_app (some n)).farewell = byePre ++ n ++ byeSuf ∧
      n <:+: (exit_app (some n)).farewell ∧
      "Asha".data <:+: (exit_app (some "Asha".data)).farewell :=
  ⟨rfl, ⟨byePre, byeSuf, rfl⟩, ⟨byePre, byeSuf, rfl⟩⟩

/-- C8: the OCR fallback runs exactly when every page's direct text is
empty or whitespace-only (a page returning `None` counts as empty); when
some page yields non-whitespace text, no OCR happens and the OCR results
cannot influence the extracted text. -/
theorem claim_c8_ocr_iff_no_direct_text (pages : List (Option Str)) :
    (usesOCR pages = true ↔ ∀ p ∈ pages, ∀ c ∈ p.getD [], isWS c = true) ∧
    ((∃ p ∈ pages, ∃ t, p = some t ∧ ¬ ∀ c ∈ t, isWS c = true) →
      usesOCR pages = false) ∧
    (usesOCR pages = false →
      ∀ o1 o2, extract_text_from_pdf pages o1 = extract_text_from_pdf pages o2) := by
  have key : usesOCR pages = true ↔ ∀ p ∈ pages, ∀ c ∈ p.getD [], isWS c = true := by
    rw [usesOCR, List.isEmpty_iff, stripChars_eq_nil_iff]
    exact directText_allWS pages
  refine ⟨key, ?_, ?_⟩
  · rintro ⟨p, hp, t, rfl, hnw⟩
    cases hu : usesOCR pages with
    | false => rfl
    | true =>
      exact absurd (fun c hc => key.1 hu (some t) hp c (by simpa using hc)) hnw
  · intro h o1 o2
    simp [extract_text_from_pdf, h]

theorem claim_c8_ocr_witness :
    usesOCR [some [' '], none, some []] = true ∧ usesOCR [some ['a']] = false :=
  ⟨(claim_c8_ocr_iff_no_direct_text [some [' '], none, some []]).1.2 (by decide),
    (claim_c8_ocr_iff_no_direct_text [some ['a']]).2.1 ⟨some ['a'], by decide,
      ['a'], rfl, by decide⟩⟩

/-- C9: the main-module guard of line 119 reads the identifier `_name_`,
which the module never binds, so executing the module as a script raises a
`NameError` once startup indexing has completed, and the Flask development
server is never started. -/
theorem claim_c9_main_guard_name_error :
    ("_name_" ∈ moduleBoundNames → False) ∧
    (∀ env : Env, runModule env ≠ .serverStarted) ∧
    (∀ (env : Env) (cs : List Str), startup env = .ok cs →
      runModule env = .nameErrorAtGuard) := by
  have hn : moduleBoundNames.contains "_name_" = false := by decide
  have third : ∀ (env : Env) (cs : List Str), startup env = .ok cs →
      runModule env = .nameErrorAtGuard := by
    intro env cs h
    unfold runModule
    rw [h, hn]
    rfl
  refine ⟨by decide, ?_, third⟩
  · intro env h
    unfold runModule at h
    cases hs : startup env with
    | error e =>
      rw [hs] at h
      exact ModuleOutcome.noConfusion h
    | ok cs =>
      rw [hs, hn] at h
      exact ModuleOutcome.noConfusion h

/-- C10: `GET /exit` with no `name` parameter does not fail: the name
defaults to `friend` and the farewell contains `friend`. -/
theorem claim_c10_exit_defaults_friend :
    (exit_app none).farewell = byePre ++ "friend".data ++ byeSuf ∧
      "friend".data <:+: (exit_app none).farewell :=
  ⟨rfl, ⟨byePre, byeSuf, rfl⟩⟩
